import Mathlib

/-!
Verification of the secure provisioning channel (ATAP secure envelope
protocol and the EPID signing/verification interface) against its
natural-language specification.

Bytes are modelled as `List Nat` (each entry one byte).  External
cryptographic primitives (BoringSSL X25519/EC/AEAD/HKDF, the EPID SDK
member/verifier engine) are modelled as parameters: structures of
functions standing for the outcomes of the external calls, so every
definition here is a faithful transliteration of the control flow and
buffer handling of the repository's own code.
-/

namespace Atap

/-- Write the first `n` bytes of `l` into an `n`-byte zeroed buffer: the
content of a C buffer of size `n` after it has been filled from `l`
(truncating or zero-extending as a `memset`+`memcpy` pair would). -/
def padTo (n : Nat) (l : List Nat) : List Nat :=
  l.take n ++ List.replicate (n - l.length) 0

/-- The four little-endian bytes of a 32-bit length field, as written by
the host-order `uint32_t` stores of the envelope builder. -/
def le32 (n : Nat) : List Nat :=
  [n % 256, n / 256 % 256, n / 65536 % 256, n / 16777216 % 256]

/-- Read a 4-byte little-endian field at offset `i`, as the test
harness's raw `*(uint32_t*)` read does on a little-endian host. -/
def readLe32 (buf : List Nat) (i : Nat) : Nat :=
  buf.getD i 0 + 256 * buf.getD (i + 1) 0 + 65536 * buf.getD (i + 2) 0 +
    16777216 * buf.getD (i + 3) 0

/-! ## ATAP wire-level constants

The protocol constants live in the libatap headers, which are not among
the sources; their values are fixed by the spec's data model (§3, §6):
an 8-byte header (two 4-byte fields), a 33-byte public-key field (the
compressed P-256 point width, into which the raw 32-byte X25519 key is
zero-padded), a 32-byte ECDH shared secret, AES-128 keys, 12-byte GCM
IVs and 16-byte GCM tags, and 32-byte SHA-256 digests. -/

def ATAP_HEADER_LEN : Nat := 8
def ATAP_ECDH_KEY_LEN : Nat := 33
def ATAP_ECDH_SHARED_SECRET_LEN : Nat := 32
def ATAP_AES_128_KEY_LEN : Nat := 16
def ATAP_GCM_IV_LEN : Nat := 12
def ATAP_GCM_TAG_LEN : Nat := 16
def ATAP_SHA256_DIGEST_LEN : Nat := 32

/-- Result codes of the ops capability (from the uses in
openssl_ops.cc and the tests). -/
inductive AtapResult where
  | ATAP_RESULT_OK
  | ATAP_RESULT_ERROR_IO
  | ATAP_RESULT_ERROR_OOM
  | ATAP_RESULT_ERROR_CRYPTO
  | ATAP_RESULT_ERROR_UNSUPPORTED_OPERATION
deriving DecidableEq

export AtapResult (ATAP_RESULT_OK ATAP_RESULT_ERROR_IO ATAP_RESULT_ERROR_OOM
  ATAP_RESULT_ERROR_CRYPTO ATAP_RESULT_ERROR_UNSUPPORTED_OPERATION)

/-- Modelled from the spec: the numeric values of the curve selector
enum, whose defining header is not among the sources; the code only
compares the selector for equality against the two supported values, so
only their distinctness matters. -/
def ATAP_CURVE_TYPE_P256 : Nat := 1

/-- Modelled from the spec: see ATAP_CURVE_TYPE_P256. -/
def ATAP_CURVE_TYPE_X25519 : Nat := 2

/-- Modelled from the spec: the byte size of the private `test_key_`
array of OpensslOps, whose declaring header is not among the sources.
Only its role as the truncation bound of SetEcdhKeyForTesting matters;
it is large enough for the DER-encoded P-256 test keys the tests load. -/
def sizeof_test_key : Nat := 256

/-- The test-override state of OpensslOps: the `test_key_` buffer
contents and the `test_key_size_` byte count. -/
structure OpensslOpsState where
  test_key_ : List Nat
  test_key_size_ : Nat

/-- Outcomes of the external X25519 primitives consumed by
OpensslOps::ecdh_shared_secret_compute.  `publicFromPrivate` and `dh`
are the (deterministic) curve functions; `keypairPub`/`keypairPriv` are
the entropy-dependent output of one X25519_keypair call. -/
structure X25519Prims where
  publicFromPrivate : List Nat → List Nat
  keypairPub : List Nat
  keypairPriv : List Nat
  dh : List Nat → List Nat → List Nat

/-- A P-256 private key as the code can hold one: parsed from the DER
test key, or freshly generated. -/
inductive P256Key where
  | fromDer (der : List Nat) : P256Key
  | generated : P256Key
deriving DecidableEq

/-- Outcomes of the external P-256 primitives consumed by
OpensslOps::ecdh_shared_secret_compute.  `oct2point` is peer-point
deserialization (`none` = not a point of the curve), `d2iPrivateKey`
tells whether the DER parse of the test key succeeds, `point2oct` is
the compressed serialization of a key's public point, and `computeKey`
the ECDH shared-secret computation. -/
structure P256Prims where
  oct2point : List Nat → Option (List Nat)
  d2iPrivateKey : List Nat → Bool
  ecKeyNewOk : Bool
  setGroupOk : Bool
  generateOk : Bool
  point2oct : P256Key → Option (List Nat)
  computeKey : P256Key → List Nat → Option (List Nat)

/-- The X25519 branch of OpensslOps::ecdh_shared_secret_compute
(openssl_ops.cc, lines 57-69): take the 32-byte test key if one of
exactly that length is configured (deriving its public key), otherwise
a fresh pair; zero the 33-byte public-key field and copy the 32-byte
public key into it; compute the shared secret from the first 32 bytes
of the peer field.  This branch cannot fail (the X25519 return value is
ignored by the source). -/
def ecdh_x25519 (st : OpensslOpsState) (x : X25519Prims)
    (other_public_key : List Nat) : AtapResult × List Nat × List Nat :=
  let x25519_priv_key :=
    if st.test_key_size_ = 32 then padTo 32 st.test_key_
    else padTo 32 x.keypairPriv
  let x25519_pub_key :=
    if st.test_key_size_ = 32 then
      padTo 32 (x.publicFromPrivate (padTo 32 st.test_key_))
    else padTo 32 x.keypairPub
  (ATAP_RESULT_OK,
   x25519_pub_key ++ List.replicate (ATAP_ECDH_KEY_LEN - 32) 0,
   padTo 32 (x.dh x25519_priv_key (other_public_key.take 32)))

/-- The private-key acquisition step of the P-256 branch
(openssl_ops.cc, lines 84-105): parse the configured test key when one
is present, otherwise allocate and generate a fresh key.  `none` is the
one undefined-behaviour corner of the source: a failed
d2i_ECPrivateKey is not null-checked before EC_KEY_set_group
dereferences it.  `Except.error r` is an early return with result
`r`. -/
def p256_private_key (st : OpensslOpsState) (p : P256Prims) :
    Option (Except AtapResult P256Key) :=
  if st.test_key_size_ > 0 then
    if p.d2iPrivateKey (st.test_key_.take st.test_key_size_) then
      some (Except.ok (P256Key.fromDer (st.test_key_.take st.test_key_size_)))
    else none
  else
    if ¬ p.ecKeyNewOk then some (Except.error ATAP_RESULT_ERROR_OOM)
    else if ¬ p.setGroupOk then some (Except.error ATAP_RESULT_ERROR_CRYPTO)
    else if ¬ p.generateOk then some (Except.error ATAP_RESULT_ERROR_CRYPTO)
    else some (Except.ok P256Key.generated)

/-- The P-256 branch of OpensslOps::ecdh_shared_secret_compute
(openssl_ops.cc, lines 70-126): deserialize the peer point, acquire the
private key, serialize the own public key into the 33-byte field, then
compute the shared secret.  Note that the public-key output buffer is
overwritten by the serialization step before the shared-secret step can
still fail. -/
def ecdh_p256 (st : OpensslOpsState) (p : P256Prims)
    (other_public_key public_key shared_secret : List Nat) :
    Option (AtapResult × List Nat × List Nat) :=
  match p.oct2point other_public_key with
  | none => some (ATAP_RESULT_ERROR_CRYPTO, public_key, shared_secret)
  | some other_point =>
    match p256_private_key st p with
    | none => none
    | some (Except.error r) => some (r, public_key, shared_secret)
    | some (Except.ok pkey) =>
      match p.point2oct pkey with
      | none => some (ATAP_RESULT_ERROR_CRYPTO, public_key, shared_secret)
      | some pubOct =>
        let public_key1 := padTo ATAP_ECDH_KEY_LEN pubOct
        match p.computeKey pkey other_point with
        | none => some (ATAP_RESULT_ERROR_CRYPTO, public_key1, shared_secret)
        | some ss => some (ATAP_RESULT_OK, public_key1, padTo 32 ss)

/-- OpensslOps::ecdh_shared_secret_compute (openssl_ops.cc, lines
52-132), over the buffers' contents: `public_key` and `shared_secret`
are the output buffers' contents on entry, and the result carries their
contents on exit together with the returned AtapResult.  The outer
`Option` is `none` only for the undefined-behaviour corner noted at
p256_private_key. -/
def ecdh_shared_secret_compute (st : OpensslOpsState) (x : X25519Prims)
    (p : P256Prims) (curve : Nat)
    (other_public_key public_key shared_secret : List Nat) :
    Option (AtapResult × List Nat × List Nat) :=
  if curve = ATAP_CURVE_TYPE_X25519 then
    some (ecdh_x25519 st x other_public_key)
  else if curve = ATAP_CURVE_TYPE_P256 then
    ecdh_p256 st p other_public_key public_key shared_secret
  else
    some (ATAP_RESULT_ERROR_UNSUPPORTED_OPERATION, public_key, shared_secret)

/-- OpensslOps::SetEcdhKeyForTesting (openssl_ops.cc, lines 249-258):
clamp the requested size to the buffer size, copy that many bytes, and
record the clamped size. -/
def SetEcdhKeyForTesting (st : OpensslOpsState) (key_data : List Nat)
    (size_in_bytes : Nat) : OpensslOpsState :=
  let sz := if size_in_bytes > sizeof_test_key then sizeof_test_key else size_in_bytes
  let buf := if sz > 0 then key_data.take sz ++ st.test_key_.drop sz else st.test_key_
  ⟨buf, sz⟩

/-- Why the underlying one-shot AEAD open failed.  The code never looks
at the cause; it is carried here only so the non-distinguishability of
the two causes can be stated. -/
inductive GcmFailure where
  | tagMismatch
  | internalError
deriving DecidableEq

/-- OpensslOps::aes_gcm_128_decrypt (openssl_ops.cc, lines 177-217).
`gcmOpen key iv inBuf` is the outcome of the external
EVP_AEAD_CTX_open call on the `ciphertext ++ tag` buffer the code
assembles; `ctxInitOk` is the outcome of EVP_AEAD_CTX_init.  Returns
the AtapResult and the plaintext (only defined on success). -/
def aes_gcm_128_decrypt
    (gcmOpen : List Nat → List Nat → List Nat → Except GcmFailure (List Nat))
    (ctxInitOk : Bool) (ciphertext : List Nat) (len : Nat)
    (iv key tag : List Nat) : AtapResult × Option (List Nat) :=
  if ¬ ctxInitOk then (ATAP_RESULT_ERROR_CRYPTO, none)
  else
    let in_buf := ciphertext.take len ++ padTo ATAP_GCM_TAG_LEN tag
    match gcmOpen (padTo ATAP_AES_128_KEY_LEN key) (padTo ATAP_GCM_IV_LEN iv) in_buf with
    | Except.error _ => (ATAP_RESULT_ERROR_CRYPTO, none)
    | Except.ok pt => (ATAP_RESULT_OK, some (padTo len pt))

/-! ## Session-key derivation and the CA-request envelope

The libatap command layer (atap_get_ca_request, derive_session_key) is
not among the sources; only its ops backends and its unit tests are.
The definitions below are modelled from the spec (§4.2, §4.3, §6) and
are exercised against the parsing the unit test performs on the emitted
buffer, which is among the sources. -/

/-- External primitives the envelope builder consumes through the ops
capability: `hkdf salt ikm info len` is the HKDF-SHA256 call (both
backends delegate it verbatim to the external library), and
`gcmSeal key iv plaintext` is the output buffer (ciphertext followed by
tag) of the one-shot AEAD seal. -/
structure EnvelopePrims where
  hkdf : List Nat → List Nat → List Nat → Nat → List Nat
  gcmSeal : List Nat → List Nat → List Nat → List Nat

/-- The 3-byte ASCII context label "KEY" passed for session-key
derivation (atap_command_unittest.cpp, line 90). -/
def keyLabel : List Nat := [75, 69, 89]

/-- Modelled from the spec (§4.2): derive_session_key of libatap, which
is not among the sources.  Salt is the fixed ordering
`device_public_key ++ ca_public_key`, IKM the shared secret, info the
literal label, output length ATAP_AES_128_KEY_LEN. -/
def derive_session_key (hkdf : List Nat → List Nat → List Nat → Nat → List Nat)
    (device_pub ca_pub shared_secret label : List Nat) : List Nat :=
  hkdf (device_pub ++ ca_pub) shared_secret label ATAP_AES_128_KEY_LEN

/-- Everything following the header of a CA request: device public
key, IV, ciphertext length, ciphertext, tag, in that fixed order. -/
def caRequestBody (device_pub iv1 ciphertext tag : List Nat) : List Nat :=
  device_pub ++ iv1 ++ le32 ciphertext.length ++ ciphertext ++ tag

/-- A full CA request: 4 reserved header bytes, the 4-byte total-length
field covering everything following the header, then the body. -/
def caRequestBytes (device_pub iv1 ciphertext tag : List Nat) : List Nat :=
  List.replicate 4 0 ++
    le32 (caRequestBody device_pub iv1 ciphertext tag).length ++
    caRequestBody device_pub iv1 ciphertext tag

/-- Modelled from the spec (§4.3, §6): atap_get_ca_request of libatap,
which is not among the sources.  It obtains the device key pair and
shared secret from the repository's own ecdh_shared_secret_compute,
derives the session key, AEAD-seals the inner plaintext under a fresh
IV, and assembles the caRequestBytes envelope.  Returns the emitted
request bytes and the derived session key, or `none` if the ECDH step
did not return ATAP_RESULT_OK. -/
def atap_get_ca_request (e : EnvelopePrims) (st : OpensslOpsState)
    (x : X25519Prims) (p : P256Prims) (curve : Nat)
    (ca_public_key inner iv : List Nat) : Option (List Nat × List Nat) :=
  match ecdh_shared_secret_compute st x p curve ca_public_key
      (List.replicate ATAP_ECDH_KEY_LEN 0)
      (List.replicate ATAP_ECDH_SHARED_SECRET_LEN 0) with
  | some (ATAP_RESULT_OK, device_pub, shared_secret) =>
    let session_key := derive_session_key e.hkdf device_pub ca_public_key shared_secret keyLabel
    let iv1 := padTo ATAP_GCM_IV_LEN iv
    let sealed := padTo (inner.length + ATAP_GCM_TAG_LEN) (e.gcmSeal session_key iv1 inner)
    some (caRequestBytes device_pub iv1 (sealed.take inner.length) (sealed.drop inner.length),
      session_key)
  | _ => none

/-! Field extraction at the fixed offsets used by
CommandTest::validate_ca_request (atap_command_unittest.cpp, lines
96-116): length field at offset 4, device public key at 8, IV at 41,
ciphertext length at 53, ciphertext at 57, tag after the ciphertext. -/

/-- The 4-byte length field at header offset 4. -/
def caRequestHeaderLenField (buf : List Nat) : Nat := readLe32 buf 4

/-- The device public key field, ATAP_ECDH_KEY_LEN bytes at offset 8. -/
def caRequestDevicePubKey (buf : List Nat) : List Nat :=
  (buf.drop ATAP_HEADER_LEN).take ATAP_ECDH_KEY_LEN

/-- The IV field, ATAP_GCM_IV_LEN bytes at offset 41. -/
def caRequestIv (buf : List Nat) : List Nat :=
  (buf.drop (ATAP_HEADER_LEN + ATAP_ECDH_KEY_LEN)).take ATAP_GCM_IV_LEN

/-- The 4-byte ciphertext length field at offset 53. -/
def caRequestCiphertextLen (buf : List Nat) : Nat :=
  readLe32 buf (ATAP_HEADER_LEN + ATAP_ECDH_KEY_LEN + ATAP_GCM_IV_LEN)

/-- The ciphertext, starting at offset 57. -/
def caRequestCiphertext (buf : List Nat) : List Nat :=
  (buf.drop (ATAP_HEADER_LEN + ATAP_ECDH_KEY_LEN + ATAP_GCM_IV_LEN + 4)).take
    (caRequestCiphertextLen buf)

/-- The GCM tag, following the ciphertext. -/
def caRequestTag (buf : List Nat) : List Nat :=
  (buf.drop (ATAP_HEADER_LEN + ATAP_ECDH_KEY_LEN + ATAP_GCM_IV_LEN + 4 +
    caRequestCiphertextLen buf)).take ATAP_GCM_TAG_LEN

/-! ## The CA side (FakeAtapOps) -/

/-- The CA-side key material and external primitives consumed by
FakeAtapOps::ecdh_shared_secret_compute (fake_atap_ops.cc, lines
105-171): the CA private/public key fixtures read from disk, the X25519
function, and the P-256 primitives. -/
structure FakeCaPrims where
  caX25519Priv : List Nat
  caX25519Pub : List Nat
  xdh : List Nat → List Nat → List Nat
  oct2point : List Nat → Option (List Nat)
  caP256PrivDer : List Nat
  d2iOk : Bool
  point2oct : List Nat → Option (List Nat)
  computeKey : List Nat → List Nat → Option (List Nat)

/-- FakeAtapOps::ecdh_shared_secret_compute (fake_atap_ops.cc, lines
105-171): the CA derives the shared secret from the device public key
(`other_public_key`) and its own fixture private key, and emits its own
public key.  `public_key` and `shared_secret` are the output buffers'
contents on entry. -/
def fake_ecdh_shared_secret_compute (f : FakeCaPrims) (curve : Nat)
    (other_public_key public_key shared_secret : List Nat) :
    Option (AtapResult × List Nat × List Nat) :=
  if curve = ATAP_CURVE_TYPE_X25519 then
    let public_key1 := padTo ATAP_ECDH_KEY_LEN f.caX25519Pub
    let shared_secret1 :=
      padTo 32 (f.xdh (padTo 32 f.caX25519Priv) (other_public_key.take 32))
    some (ATAP_RESULT_OK, public_key1, shared_secret1)
  else if curve = ATAP_CURVE_TYPE_P256 then
    match f.oct2point other_public_key with
    | none => some (ATAP_RESULT_ERROR_CRYPTO, public_key, shared_secret)
    | some other_point =>
      if ¬ f.d2iOk then some (ATAP_RESULT_ERROR_CRYPTO, public_key, shared_secret)
      else
        match f.point2oct f.caP256PrivDer with
        | none => some (ATAP_RESULT_ERROR_CRYPTO, public_key, shared_secret)
        | some pubOct =>
          let public_key1 := padTo ATAP_ECDH_KEY_LEN pubOct
          match f.computeKey f.caP256PrivDer other_point with
          | none => some (ATAP_RESULT_ERROR_CRYPTO, public_key1, shared_secret)
          | some ss => some (ATAP_RESULT_OK, public_key1, padTo 32 ss)
  else
    some (ATAP_RESULT_ERROR_UNSUPPORTED_OPERATION, public_key, shared_secret)

/-- CommandTest::compute_session_key (atap_command_unittest.cpp, lines
79-94): the CA side computes its shared secret and public key from the
device public key taken from the envelope, then derives the session key
with the same label.  `none` when the ECDH step does not return
ATAP_RESULT_OK (the test asserts it does). -/
def compute_session_key (e : EnvelopePrims) (f : FakeCaPrims) (curve : Nat)
    (device_pubkey : List Nat) : Option (List Nat) :=
  match fake_ecdh_shared_secret_compute f curve device_pubkey
      (List.replicate ATAP_ECDH_KEY_LEN 0)
      (List.replicate ATAP_ECDH_SHARED_SECRET_LEN 0) with
  | some (ATAP_RESULT_OK, ca_pubkey, shared_secret) =>
    some (derive_session_key e.hkdf device_pubkey ca_pubkey shared_secret keyLabel)
  | _ => none

/-! ## Concrete instantiations used to evaluate the theorems -/

/-- X25519 primitives that return empty buffers: used where the X25519
path is not taken. -/
def xTrivial : X25519Prims := ⟨fun _ => [], [], [], fun _ _ => []⟩

/-- P-256 primitives that fail every call: used where the P-256 path is
not taken. -/
def pTrivial : P256Prims :=
  ⟨fun _ => none, fun _ => false, true, true, true, fun _ => none, fun _ _ => none⟩

/-- P-256 primitives whose peer-point decode, key generation and
public-key serialization succeed but whose shared-secret computation
fails: the failure path that overwrites the public-key output buffer
before returning an error. -/
def pComputeFail : P256Prims :=
  ⟨fun _ => some [1], fun _ => false, true, true, true,
   fun _ => some (List.replicate 33 7), fun _ _ => none⟩

/-- A deterministic envelope-primitives instance for concrete
evaluation. -/
def eConcrete : EnvelopePrims :=
  ⟨fun _ _ _ len => List.replicate len 5, fun _ _ pt => pt ++ List.replicate 16 9⟩

/-- An ops state holding a 32-byte X25519 test key. -/
def stConcrete : OpensslOpsState := ⟨List.replicate 32 3, 32⟩

/-- Deterministic X25519 primitives for concrete evaluation. -/
def xConcrete : X25519Prims :=
  ⟨fun _ => List.replicate 32 1, [], [], fun _ _ => List.replicate 32 2⟩

/-- A CA-side primitives instance matching xConcrete: its X25519
agreement yields the same shared secret, and its public-key fixture is
the CA public key the device used. -/
def fConcrete : FakeCaPrims :=
  ⟨List.replicate 32 8, List.replicate 33 6, fun _ _ => List.replicate 32 2,
   fun _ => none, [], false, fun _ => none, fun _ _ => none⟩

/-- The CA public key used in the concrete evaluations. -/
def caPubConcrete : List Nat := List.replicate 33 6

/-- The inner plaintext used in the concrete evaluations. -/
def innerConcrete : List Nat := [7, 7]

/-- The IV used in the concrete evaluations. -/
def ivConcrete : List Nat := List.replicate 12 4

/-- The session key the concrete evaluation derives. -/
def skConcrete : List Nat := List.replicate 16 5

/-- The device public key the concrete evaluation emits. -/
def dpubConcrete : List Nat := List.replicate 32 1 ++ [0]

/-- The CA request the concrete evaluation emits. -/
def reqConcrete : List Nat :=
  List.replicate 4 0 ++ le32 67 ++ dpubConcrete ++ ivConcrete ++ le32 2 ++
    [7, 7] ++ List.replicate 16 9

end Atap

namespace Epid

/-- Status codes of the EPID interface (from the uses in signmsg.c,
verifysig.c and the expectations of epid_unittest.cc). -/
inductive EpidStatus where
  | kEpidNoErr
  | kEpidSigInvalid
  | kEpidErr
  | kEpidBadArgErr
  | kEpidNoMemErr
  | kEpidMemAllocErr
deriving DecidableEq

export EpidStatus (kEpidNoErr kEpidSigInvalid kEpidErr kEpidBadArgErr
  kEpidNoMemErr kEpidMemAllocErr)

/-- Modelled from the spec: the hash-algorithm selector values of the
external component's HashAlg enum, whose defining header is not among
the sources; the supported selectors are the four the spec and the unit
test name, and the two rejected selectors the test exercises are listed
with them. -/
def kSha256 : Int := 0

/-- Modelled from the spec: see kSha256. -/
def kSha384 : Int := 1

/-- Modelled from the spec: see kSha256. -/
def kSha512 : Int := 2

/-- Modelled from the spec: see kSha256. -/
def kSha512_256 : Int := 3

/-- Modelled from the spec: see kSha256. -/
def kSha3_512 : Int := 6

/-- Modelled from the spec: see kSha256. -/
def kInvalidHashAlg : Int := -1

/-- The four selectors the spec admits (SHA-256/384/512/512-256). -/
def epidHashAlgSupported (h : Int) : Bool :=
  h = kSha256 || h = kSha384 || h = kSha512 || h = kSha512_256

/-- Modelled from the spec: EpidMemberSetHashAlg / EpidVerifierSetHashAlg
of the external component (not among the sources) succeed on the four
supported selectors and fail with the bad-argument status on every
other selector, as §6 states and epid_unittest.cc (lines 258-274)
checks. -/
def epidSetHashAlg (h : Int) : EpidStatus :=
  if epidHashAlgSupported h then kEpidNoErr else kEpidBadArgErr

/-- Byte sizes of the external component's structures, as documented in
the interface headers and fixed by the field layout of EpidKeyATAP
(signmsg.c, lines 49-60): GroupPubKey 16+64+64+128, PrivKey
16+64+32+32, EpidKeyATAP 400, MemberPrecomp 1536 (epid_unittest.cc,
line 63). -/
def sizeof_GroupPubKey : Nat := 272

/-- See sizeof_GroupPubKey. -/
def sizeof_PrivKey : Nat := 144

/-- See sizeof_GroupPubKey. -/
def sizeof_EpidKeyATAP : Nat := 400

/-- See sizeof_GroupPubKey. -/
def sizeof_MemberPrecomp : Nat := 1536

/-- Outcomes of the external member-engine calls a signing-side
interface function makes, in program order. -/
structure EpidMemberEnv where
  memberGetSize : EpidStatus
  callocOk : Bool
  memberInit : EpidStatus
  provisionKey : EpidStatus
  memberStartup : EpidStatus
  registerBasename : EpidStatus
  getSigSize : Nat
  signStatus : EpidStatus
  writePrecomp : EpidStatus

/-- EpidApiSign (signmsg.c, lines 62-206).  Null pointers are modelled
as booleans; the signature revocation-list handling is commented out in
the source, so `sig_rl` stays null and EpidGetSigSize is queried on the
null list.  Returns the status together with the `sig_len` passed to
the external EpidSign call, or `none` when EpidSign was never invoked.
The source's second `!sig` check and its `buf_privkey_size` else-branch
are unreachable (both conditions were already checked) and drop out. -/
def EpidApiSign (env : EpidMemberEnv) (sigNull pubNull privNull : Bool)
    (pubSize privSize basenameLen : Nat) (hashAlg : Int) :
    EpidStatus × Option Nat :=
  if sigNull then (kEpidBadArgErr, none)
  else if pubNull || pubSize ≠ sizeof_GroupPubKey then (kEpidBadArgErr, none)
  else if privNull || privSize ≠ sizeof_PrivKey then (kEpidBadArgErr, none)
  else if env.memberGetSize ≠ kEpidNoErr then (env.memberGetSize, none)
  else if ¬ env.callocOk then (kEpidNoMemErr, none)
  else if env.memberInit ≠ kEpidNoErr then (env.memberInit, none)
  else if epidSetHashAlg hashAlg ≠ kEpidNoErr then (epidSetHashAlg hashAlg, none)
  else if env.provisionKey ≠ kEpidNoErr then (env.provisionKey, none)
  else if env.memberStartup ≠ kEpidNoErr then (env.memberStartup, none)
  else if basenameLen ≠ 0 ∧ env.registerBasename ≠ kEpidNoErr then
    (env.registerBasename, none)
  else if 360 ≠ env.getSigSize then (kEpidMemAllocErr, none)
  else (env.signStatus, some 360)

/-- EpidApiSignAtap (signmsg.c, lines 208-250).  Returns the status,
the value written through `buf_sig_len` (`none` when the function
returned before the write), and the `sig_len` the inner EpidApiSign
passed to EpidSign (`none` when EpidSign was never invoked). -/
def EpidApiSignAtap (env : EpidMemberEnv) (sigNull sigLenNull keyNull : Bool)
    (keySize basenameLen : Nat) (hashAlg : Int) :
    EpidStatus × Option Nat × Option Nat :=
  if sigNull || sigLenNull then (kEpidBadArgErr, none, none)
  else if keyNull || keySize ≠ sizeof_EpidKeyATAP then (kEpidBadArgErr, some 360, none)
  else
    let r := EpidApiSign env false false false sizeof_GroupPubKey sizeof_PrivKey
      basenameLen hashAlg
    (r.1, some 360, r.2)

/-- Outcomes of the external verifier-engine calls EpidApiVerify
makes, in program order. -/
structure EpidVerifierEnv where
  verifierCreate : EpidStatus
  setBasename : EpidStatus
  verifyStatus : EpidStatus

/-- EpidApiVerify (verifysig.c, lines 25-200).  All four revocation-list
blocks are commented out in the source and drop out.  Returns the
status together with whether the external EpidVerify call was
reached. -/
def EpidApiVerify (env : EpidVerifierEnv) (pubNull : Bool) (pubSize : Nat)
    (hashAlg : Int) : EpidStatus × Bool :=
  if pubNull || pubSize ≠ sizeof_GroupPubKey then (kEpidBadArgErr, false)
  else if env.verifierCreate ≠ kEpidNoErr then (env.verifierCreate, false)
  else if epidSetHashAlg hashAlg ≠ kEpidNoErr then (epidSetHashAlg hashAlg, false)
  else if env.setBasename ≠ kEpidNoErr then (env.setBasename, false)
  else (env.verifyStatus, true)

/-- The status the do-while chain of EpidApiSignPrecomp (signmsg.c,
lines 281-318) leaves in `sts` after the member-size query, allocation,
member init, key provisioning, member startup and precomp write. -/
def epidSignPrecompChainStatus (env : EpidMemberEnv) : EpidStatus :=
  if env.memberGetSize ≠ kEpidNoErr then env.memberGetSize
  else if ¬ env.callocOk then kEpidNoMemErr
  else if env.memberInit ≠ kEpidNoErr then env.memberInit
  else if env.provisionKey ≠ kEpidNoErr then env.provisionKey
  else if env.memberStartup ≠ kEpidNoErr then env.memberStartup
  else env.writePrecomp

/-- EpidApiSignPrecomp (signmsg.c, lines 252-324): after the two buffer
size checks, it runs the member chain, but its final statement returns
the literal kEpidNoErr, discarding the chain's `sts`. -/
def EpidApiSignPrecomp (env : EpidMemberEnv) (keyNull precompNull : Bool)
    (keySize precompSize : Nat) : EpidStatus :=
  if precompNull || precompSize ≠ sizeof_MemberPrecomp then kEpidBadArgErr
  else if keyNull || keySize ≠ sizeof_EpidKeyATAP then kEpidBadArgErr
  else
    let _sts := epidSignPrecompChainStatus env
    kEpidNoErr

/-! ## Concrete instantiations used to evaluate the theorems -/

/-- A member environment in which every external step succeeds and the
computed signature size is the expected 360. -/
def envAllOk : EpidMemberEnv :=
  ⟨kEpidNoErr, true, kEpidNoErr, kEpidNoErr, kEpidNoErr, kEpidNoErr, 360,
   kEpidNoErr, kEpidNoErr⟩

/-- A member environment in which every external step fails. -/
def envAllFail : EpidMemberEnv :=
  ⟨kEpidErr, false, kEpidErr, kEpidErr, kEpidErr, kEpidErr, 0, kEpidErr, kEpidErr⟩

/-- A member environment whose computed signature size is not 360. -/
def envSig361 : EpidMemberEnv :=
  ⟨kEpidNoErr, true, kEpidNoErr, kEpidNoErr, kEpidNoErr, kEpidNoErr, 361,
   kEpidNoErr, kEpidNoErr⟩

/-- A verifier environment in which every external step succeeds. -/
def venvAllOk : EpidVerifierEnv := ⟨kEpidNoErr, kEpidNoErr, kEpidNoErr⟩

end Epid

namespace Atap

/-! ## Helper lemmas -/

theorem padTo_length (n : Nat) (l : List Nat) : (padTo n l).length = n := by
  simp [padTo]
  omega

theorem le32_length (n : Nat) : (le32 n).length = 4 := rfl

theorem getD_append_left_length (l₁ l₂ : List Nat) (k : Nat) :
    (l₁ ++ l₂).getD (l₁.length + k) 0 = l₂.getD k 0 := by
  simp [List.getD_eq_getElem?_getD, List.getElem?_append_right (Nat.le_add_right _ _)]

theorem readLe32_encode (pre suf : List Nat) (n : Nat) (h : n < 4294967296) :
    readLe32 (pre ++ (le32 n ++ suf)) pre.length = n := by
  have h0 := getD_append_left_length pre (le32 n ++ suf) 0
  have h1 := getD_append_left_length pre (le32 n ++ suf) 1
  have h2 := getD_append_left_length pre (le32 n ++ suf) 2
  have h3 := getD_append_left_length pre (le32 n ++ suf) 3
  simp only [Nat.add_zero] at h0
  unfold readLe32
  rw [h0, h1, h2, h3]
  simp [le32, List.getD]
  omega

theorem drop_concat (pre suf : List Nat) (n : Nat) (h : pre.length = n) :
    (pre ++ suf).drop n = suf := by
  subst h
  exact List.drop_left pre suf

theorem extract_concat (pre mid suf : List Nat) (n k : Nat)
    (h : pre.length = n) (hk : mid.length = k) :
    ((pre ++ (mid ++ suf)).drop n).take k = mid := by
  subst h
  subst hk
  rw [List.drop_left, List.take_left]

/-- Any ATAP_RESULT_OK outcome of the ECDH operation carries a 33-byte
public key and a 32-byte shared secret. -/
theorem ecdh_ok_lengths (st : OpensslOpsState) (x : X25519Prims) (p : P256Prims)
    (curve : Nat) (other pub ss dpub dss : List Nat)
    (h : ecdh_shared_secret_compute st x p curve other pub ss
        = some (ATAP_RESULT_OK, dpub, dss)) :
    dpub.length = ATAP_ECDH_KEY_LEN ∧ dss.length = 32 := by
  unfold ecdh_shared_secret_compute at h
  split_ifs at h with h1 h2
  · simp only [ecdh_x25519, Option.some.injEq, Prod.mk.injEq] at h
    obtain ⟨-, h3, h4⟩ := h
    have hlen : (if st.test_key_size_ = 32 then
        padTo 32 (x.publicFromPrivate (padTo 32 st.test_key_))
      else padTo 32 x.keypairPub).length = 32 := by
      split <;> exact padTo_length 32 _
    constructor
    · rw [← h3]
      simp [hlen, ATAP_ECDH_KEY_LEN]
    · rw [← h4]
      exact padTo_length 32 _
  · unfold ecdh_p256 at h
    rcases hop : p.oct2point other with _ | pt
    · simp [hop] at h
    · simp only [hop] at h
      rcases hk : p256_private_key st p with _ | (r | k)
      · simp [hk] at h
      · simp only [hk, Option.some.injEq, Prod.mk.injEq] at h
        obtain ⟨hr, -, -⟩ := h
        unfold p256_private_key at hk
        split_ifs at hk <;> simp_all
      · simp only [hk] at h
        rcases hpo : p.point2oct k with _ | po
        · simp [hpo] at h
        · simp only [hpo] at h
          rcases hck : p.computeKey k pt with _ | sk
          · simp [hck] at h
          · simp only [hck, Option.some.injEq, Prod.mk.injEq] at h
            obtain ⟨-, h3, h4⟩ := h
            constructor
            · rw [← h3]
              exact padTo_length _ _
            · rw [← h4]
              exact padTo_length _ _
  · simp at h

theorem take_concat (pre suf : List Nat) (n : Nat) (h : pre.length = n) :
    (pre ++ suf).take n = pre := by
  subst h
  exact List.take_left pre suf

/-- Length of the CA-request body. -/
theorem caRequestBody_length (dpub iv1 ct tag : List Nat)
    (hd : dpub.length = ATAP_ECDH_KEY_LEN) (hi : iv1.length = ATAP_GCM_IV_LEN)
    (ht : tag.length = ATAP_GCM_TAG_LEN) :
    (caRequestBody dpub iv1 ct tag).length = ct.length + 65 := by
  simp [caRequestBody, hd, hi, ht, le32_length, ATAP_ECDH_KEY_LEN, ATAP_GCM_IV_LEN,
    ATAP_GCM_TAG_LEN]
  omega

/-- The fixed-offset reads the unit test performs recover exactly the
fields a caRequestBytes envelope was assembled from. -/
theorem caRequestBytes_layout (dpub iv1 ct tag : List Nat)
    (hd : dpub.length = ATAP_ECDH_KEY_LEN) (hi : iv1.length = ATAP_GCM_IV_LEN)
    (ht : tag.length = ATAP_GCM_TAG_LEN)
    (hfit : ct.length + 65 < 4294967296) :
    caRequestHeaderLenField (caRequestBytes dpub iv1 ct tag) = ct.length + 65
    ∧ (caRequestBytes dpub iv1 ct tag).length = ct.length + 73
    ∧ caRequestCiphertextLen (caRequestBytes dpub iv1 ct tag) = ct.length
    ∧ caRequestDevicePubKey (caRequestBytes dpub iv1 ct tag) = dpub
    ∧ caRequestIv (caRequestBytes dpub iv1 ct tag) = iv1
    ∧ caRequestCiphertext (caRequestBytes dpub iv1 ct tag) = ct
    ∧ caRequestTag (caRequestBytes dpub iv1 ct tag) = tag
    ∧ (caRequestBytes dpub iv1 ct tag).take 4 = List.replicate 4 0 := by
  have hbody := caRequestBody_length dpub iv1 ct tag hd hi ht
  have hd33 : dpub.length = 33 := hd
  have hi12 : iv1.length = 12 := hi
  have ht16 : tag.length = 16 := ht
  have hC : caRequestCiphertextLen (caRequestBytes dpub iv1 ct tag) = ct.length := by
    have h2 : caRequestBytes dpub iv1 ct tag
        = (List.replicate 4 0 ++ le32 (caRequestBody dpub iv1 ct tag).length ++ dpub ++ iv1)
          ++ (le32 ct.length ++ (ct ++ tag)) := by
      simp [caRequestBytes, caRequestBody, List.append_assoc]
    have hp53 : (List.replicate 4 0 ++ le32 (caRequestBody dpub iv1 ct tag).length
        ++ dpub ++ iv1).length = 53 := by
      simp [le32_length, hd33, hi12]
    have hr := readLe32_encode
      (List.replicate 4 0 ++ le32 (caRequestBody dpub iv1 ct tag).length ++ dpub ++ iv1)
      (ct ++ tag) ct.length (by omega)
    rw [hp53] at hr
    show readLe32 (caRequestBytes dpub iv1 ct tag)
      (ATAP_HEADER_LEN + ATAP_ECDH_KEY_LEN + ATAP_GCM_IV_LEN) = ct.length
    rw [h2]
    exact hr
  refine ⟨?_, ?_, hC, ?_, ?_, ?_, ?_, ?_⟩
  · have h1 : caRequestBytes dpub iv1 ct tag
        = List.replicate 4 0 ++ (le32 (caRequestBody dpub iv1 ct tag).length
          ++ caRequestBody dpub iv1 ct tag) := by
      simp [caRequestBytes, List.append_assoc]
    have hr := readLe32_encode (List.replicate 4 0) (caRequestBody dpub iv1 ct tag)
      (caRequestBody dpub iv1 ct tag).length (by omega)
    simp only [List.length_replicate] at hr
    show readLe32 (caRequestBytes dpub iv1 ct tag) 4 = ct.length + 65
    rw [h1, hr, hbody]
  · simp [caRequestBytes, le32_length, hbody]
    omega
  · have h3 : caRequestBytes dpub iv1 ct tag
        = (List.replicate 4 0 ++ le32 (caRequestBody dpub iv1 ct tag).length)
          ++ (dpub ++ (iv1 ++ (le32 ct.length ++ (ct ++ tag)))) := by
      simp [caRequestBytes, caRequestBody, List.append_assoc]
    show (List.drop ATAP_HEADER_LEN (caRequestBytes dpub iv1 ct tag)).take
      ATAP_ECDH_KEY_LEN = dpub
    rw [h3]
    exact extract_concat _ _ _ _ _ (by simp [le32_length, ATAP_HEADER_LEN]) hd33
  · have h4 : caRequestBytes dpub iv1 ct tag
        = (List.replicate 4 0 ++ le32 (caRequestBody dpub iv1 ct tag).length ++ dpub)
          ++ (iv1 ++ (le32 ct.length ++ (ct ++ tag))) := by
      simp [caRequestBytes, caRequestBody, List.append_assoc]
    show (List.drop (ATAP_HEADER_LEN + ATAP_ECDH_KEY_LEN)
      (caRequestBytes dpub iv1 ct tag)).take ATAP_GCM_IV_LEN = iv1
    rw [h4]
    exact extract_concat _ _ _ _ _
      (by simp [le32_length, hd33, ATAP_HEADER_LEN, ATAP_ECDH_KEY_LEN]) hi12
  · have h5 : caRequestBytes dpub iv1 ct tag
        = (List.replicate 4 0 ++ le32 (caRequestBody dpub iv1 ct tag).length ++ dpub
          ++ iv1 ++ le32 ct.length) ++ (ct ++ tag) := by
      simp [caRequestBytes, caRequestBody, List.append_assoc]
    show (List.drop (ATAP_HEADER_LEN + ATAP_ECDH_KEY_LEN + ATAP_GCM_IV_LEN + 4)
      (caRequestBytes dpub iv1 ct tag)).take
      (caRequestCiphertextLen (caRequestBytes dpub iv1 ct tag)) = ct
    rw [hC, h5]
    exact extract_concat _ _ _ _ _
      (by simp [le32_length, hd33, hi12, ATAP_HEADER_LEN, ATAP_ECDH_KEY_LEN,
        ATAP_GCM_IV_LEN]) rfl
  · have h6 : caRequestBytes dpub iv1 ct tag
        = (List.replicate 4 0 ++ le32 (caRequestBody dpub iv1 ct tag).length ++ dpub
          ++ iv1 ++ le32 ct.length ++ ct) ++ (tag ++ []) := by
      simp [caRequestBytes, caRequestBody, List.append_assoc]
    show (List.drop (ATAP_HEADER_LEN + ATAP_ECDH_KEY_LEN + ATAP_GCM_IV_LEN + 4
      + caRequestCiphertextLen (caRequestBytes dpub iv1 ct tag))
      (caRequestBytes dpub iv1 ct tag)).take ATAP_GCM_TAG_LEN = tag
    rw [hC, h6]
    refine extract_concat _ _ _ _ _ ?_ ht16
    simp only [List.length_append, List.length_replicate, le32_length,
      hd33, hi12, ATAP_HEADER_LEN, ATAP_ECDH_KEY_LEN, ATAP_GCM_IV_LEN]
  · have h7 : caRequestBytes dpub iv1 ct tag
        = List.replicate 4 0 ++ (le32 (caRequestBody dpub iv1 ct tag).length
          ++ caRequestBody dpub iv1 ct tag) := by
      simp [caRequestBytes, List.append_assoc]
    rw [h7]
    refine take_concat _ _ _ ?_
    simp

/-- The device-public-key field read at offset 8 of a caRequestBytes
envelope is the key it was assembled from. -/
theorem caRequestBytes_devicePubKey (dpub iv1 ct tag : List Nat)
    (hd : dpub.length = ATAP_ECDH_KEY_LEN) :
    caRequestDevicePubKey (caRequestBytes dpub iv1 ct tag) = dpub := by
  have h3 : caRequestBytes dpub iv1 ct tag
      = (List.replicate 4 0 ++ le32 (caRequestBody dpub iv1 ct tag).length)
        ++ (dpub ++ (iv1 ++ (le32 ct.length ++ (ct ++ tag)))) := by
    simp [caRequestBytes, caRequestBody, List.append_assoc]
  show (List.drop ATAP_HEADER_LEN (caRequestBytes dpub iv1 ct tag)).take
    ATAP_ECDH_KEY_LEN = dpub
  rw [h3]
  exact extract_concat _ _ _ _ _ (by simp [le32_length, ATAP_HEADER_LEN]) hd

/-- Inversion of atap_get_ca_request: every emitted request comes from
an ATAP_RESULT_OK ECDH outcome, carries the session key derived from
it, and is a caRequestBytes envelope over the sealed inner payload. -/
theorem atap_get_ca_request_shape (e : EnvelopePrims) (st : OpensslOpsState)
    (x : X25519Prims) (p : P256Prims) (curve : Nat)
    (ca_public_key inner iv req sk : List Nat)
    (hreq : atap_get_ca_request e st x p curve ca_public_key inner iv = some (req, sk)) :
    ∃ dpub dss,
      ecdh_shared_secret_compute st x p curve ca_public_key
        (List.replicate ATAP_ECDH_KEY_LEN 0)
        (List.replicate ATAP_ECDH_SHARED_SECRET_LEN 0)
        = some (ATAP_RESULT_OK, dpub, dss)
      ∧ sk = derive_session_key e.hkdf dpub ca_public_key dss keyLabel
      ∧ req = caRequestBytes dpub (padTo ATAP_GCM_IV_LEN iv)
          ((padTo (inner.length + ATAP_GCM_TAG_LEN)
            (e.gcmSeal sk (padTo ATAP_GCM_IV_LEN iv) inner)).take inner.length)
          ((padTo (inner.length + ATAP_GCM_TAG_LEN)
            (e.gcmSeal sk (padTo ATAP_GCM_IV_LEN iv) inner)).drop inner.length) := by
  unfold atap_get_ca_request at hreq
  rcases hE : ecdh_shared_secret_compute st x p curve ca_public_key
      (List.replicate ATAP_ECDH_KEY_LEN 0)
      (List.replicate ATAP_ECDH_SHARED_SECRET_LEN 0) with _ | ⟨r, dpub, dss⟩
  · rw [hE] at hreq
    simp at hreq
  · rw [hE] at hreq
    cases r with
    | ATAP_RESULT_OK =>
      simp only [Option.some.injEq, Prod.mk.injEq] at hreq
      obtain ⟨hq, hsk⟩ := hreq
      subst hsk
      subst hq
      exact ⟨dpub, dss, rfl, rfl, rfl⟩
    | ATAP_RESULT_ERROR_IO => simp at hreq
    | ATAP_RESULT_ERROR_OOM => simp at hreq
    | ATAP_RESULT_ERROR_CRYPTO => simp at hreq
    | ATAP_RESULT_ERROR_UNSUPPORTED_OPERATION => simp at hreq

/-! ## Claim C2 -/

/-- C2: every envelope emitted by atap_get_ca_request satisfies the
layout invariant: the 4-byte length field stored at header offset 4
equals the total envelope size minus ATAP_HEADER_LEN, and equals
ECDH_KEY_LEN + GCM_IV_LEN + 4 + ciphertext_len + GCM_TAG_LEN, with the
fields following the header laid out in the fixed order device public
key, IV, ciphertext length, ciphertext, tag. -/
theorem claim_C2_envelope_layout (e : EnvelopePrims) (st : OpensslOpsState)
    (x : X25519Prims) (p : P256Prims) (curve : Nat)
    (ca_public_key inner iv req sk : List Nat)
    (hreq : atap_get_ca_request e st x p curve ca_public_key inner iv = some (req, sk))
    (hfit : inner.length + 65 < 4294967296) :
    caRequestHeaderLenField req = req.length - ATAP_HEADER_LEN
    ∧ caRequestHeaderLenField req = ATAP_ECDH_KEY_LEN + ATAP_GCM_IV_LEN + 4
        + caRequestCiphertextLen req + ATAP_GCM_TAG_LEN
    ∧ caRequestCiphertextLen req = inner.length
    ∧ req = req.take 4 ++ le32 (caRequestHeaderLenField req)
        ++ caRequestDevicePubKey req ++ caRequestIv req
        ++ le32 (caRequestCiphertextLen req) ++ caRequestCiphertext req
        ++ caRequestTag req := by
  obtain ⟨dpub, dss, hE, hsk, hq⟩ :=
    atap_get_ca_request_shape e st x p curve ca_public_key inner iv req sk hreq
  have hd : dpub.length = ATAP_ECDH_KEY_LEN :=
    (ecdh_ok_lengths st x p curve ca_public_key _ _ dpub dss hE).1
  set sealed := padTo (inner.length + ATAP_GCM_TAG_LEN)
    (e.gcmSeal sk (padTo ATAP_GCM_IV_LEN iv) inner) with hsealed
  have hslen : sealed.length = inner.length + ATAP_GCM_TAG_LEN := padTo_length _ _
  have hct : (sealed.take inner.length).length = inner.length := by
    simp [List.length_take, hslen]
  have htag : (sealed.drop inner.length).length = ATAP_GCM_TAG_LEN := by
    simp [List.length_drop, hslen]
  have hiv : (padTo ATAP_GCM_IV_LEN iv).length = ATAP_GCM_IV_LEN := padTo_length _ _
  have hfit2 : (sealed.take inner.length).length + 65 < 4294967296 := by
    rw [hct]
    exact hfit
  obtain ⟨l1, l2, l3, l4, l5, l6, l7, l8⟩ :=
    caRequestBytes_layout dpub (padTo ATAP_GCM_IV_LEN iv)
      (sealed.take inner.length) (sealed.drop inner.length) hd hiv htag hfit2
  rw [hq]
  refine ⟨?_, ?_, ?_, ?_⟩
  · rw [l1, l2]
    simp [ATAP_HEADER_LEN]
  · rw [l1, l3]
    simp [ATAP_ECDH_KEY_LEN, ATAP_GCM_IV_LEN, ATAP_GCM_TAG_LEN]
    omega
  · rw [l3, hct]
  · rw [l8, l1, l4, l5, l3, l6, l7]
    have hbody := caRequestBody_length dpub (padTo ATAP_GCM_IV_LEN iv)
      (sealed.take inner.length) (sealed.drop inner.length) hd hiv htag
    rw [hct] at hbody
    simp [caRequestBytes, caRequestBody, hbody, hct, List.append_assoc]
    rw [hd, hiv, le32_length, hslen]
    congr 1
    simp only [ATAP_ECDH_KEY_LEN, ATAP_GCM_IV_LEN, ATAP_GCM_TAG_LEN]
    omega

/-- Evaluation of claim_C2_envelope_layout on a concrete request built
with the deterministic primitives. -/
theorem claim_C2_witness :
    caRequestHeaderLenField reqConcrete = reqConcrete.length - ATAP_HEADER_LEN
    ∧ caRequestHeaderLenField reqConcrete = ATAP_ECDH_KEY_LEN + ATAP_GCM_IV_LEN + 4
        + caRequestCiphertextLen reqConcrete + ATAP_GCM_TAG_LEN
    ∧ caRequestCiphertextLen reqConcrete = innerConcrete.length
    ∧ reqConcrete = reqConcrete.take 4 ++ le32 (caRequestHeaderLenField reqConcrete)
        ++ caRequestDevicePubKey reqConcrete ++ caRequestIv reqConcrete
        ++ le32 (caRequestCiphertextLen reqConcrete) ++ caRequestCiphertext reqConcrete
        ++ caRequestTag reqConcrete :=
  claim_C2_envelope_layout eConcrete stConcrete xConcrete pTrivial
    ATAP_CURVE_TYPE_X25519 caPubConcrete innerConcrete ivConcrete reqConcrete skConcrete
    (by decide) (by decide)

/-! ## Claim C1 -/

/-- C1: for each supported curve, the session key the device derives
while building a CA request is byte-identical to the session key the CA
side (FakeAtapOps plus the test's compute_session_key) derives from the
device public key embedded in the emitted envelope, its own private
key, the same shared secret, the same public keys and the label
"KEY". -/
theorem claim_C1_session_key_roundtrip (e : EnvelopePrims) (st : OpensslOpsState)
    (x : X25519Prims) (p : P256Prims) (f : FakeCaPrims) (curve : Nat)
    (ca_public_key inner iv req sk dpub dss ca_pub2 ss2 : List Nat)
    (hcurve : curve = ATAP_CURVE_TYPE_X25519 ∨ curve = ATAP_CURVE_TYPE_P256)
    (hdev : ecdh_shared_secret_compute st x p curve ca_public_key
        (List.replicate ATAP_ECDH_KEY_LEN 0)
        (List.replicate ATAP_ECDH_SHARED_SECRET_LEN 0)
        = some (ATAP_RESULT_OK, dpub, dss))
    (hreq : atap_get_ca_request e st x p curve ca_public_key inner iv = some (req, sk))
    (hca : fake_ecdh_shared_secret_compute f curve (caRequestDevicePubKey req)
        (List.replicate ATAP_ECDH_KEY_LEN 0)
        (List.replicate ATAP_ECDH_SHARED_SECRET_LEN 0)
        = some (ATAP_RESULT_OK, ca_pub2, ss2))
    (hpub : ca_pub2 = ca_public_key) (hss : ss2 = dss) :
    compute_session_key e f curve (caRequestDevicePubKey req) = some sk := by
  obtain ⟨dpub2, dss2, hE, hsk, hq⟩ :=
    atap_get_ca_request_shape e st x p curve ca_public_key inner iv req sk hreq
  rw [hdev] at hE
  simp only [Option.some.injEq, Prod.mk.injEq] at hE
  obtain ⟨-, hE1, hE2⟩ := hE
  subst hE1
  subst hE2
  have hd : dpub.length = ATAP_ECDH_KEY_LEN :=
    (ecdh_ok_lengths st x p curve ca_public_key _ _ dpub dss hdev).1
  have hdevpub : caRequestDevicePubKey req = dpub := by
    rw [hq]
    exact caRequestBytes_devicePubKey dpub _ _ _ hd
  unfold compute_session_key
  simp only [hca]
  rw [hdevpub, hpub, hss, hsk]

/-- Evaluation of claim_C1_session_key_roundtrip: the concrete device
build and the concrete CA-side derivation agree on the session key. -/
theorem claim_C1_witness :
    compute_session_key eConcrete fConcrete ATAP_CURVE_TYPE_X25519
      (caRequestDevicePubKey reqConcrete) = some skConcrete :=
  claim_C1_session_key_roundtrip eConcrete stConcrete xConcrete pTrivial fConcrete
    ATAP_CURVE_TYPE_X25519 caPubConcrete innerConcrete ivConcrete reqConcrete skConcrete
    dpubConcrete (List.replicate 32 2) (List.replicate 33 6) (List.replicate 32 2)
    (Or.inl rfl) (by decide) (by decide) (by decide) (by decide) (by decide)

/-! ## Claim C3 -/

/-- C3: aes_gcm_128_decrypt returns the single error kind
ATAP_RESULT_ERROR_CRYPTO for every decryption failure: a tag mismatch
and any other internal decryption error (and also a context-init
failure) produce the same result value, so a caller cannot distinguish
the cases from the result. -/
theorem claim_C3_uniform_decrypt_error
    (g₁ g₂ : List Nat → List Nat → List Nat → Except GcmFailure (List Nat))
    (ciphertext : List Nat) (len : Nat) (iv key tag : List Nat)
    (f₁ f₂ : GcmFailure)
    (h₁ : g₁ (padTo ATAP_AES_128_KEY_LEN key) (padTo ATAP_GCM_IV_LEN iv)
        (ciphertext.take len ++ padTo ATAP_GCM_TAG_LEN tag) = Except.error f₁)
    (h₂ : g₂ (padTo ATAP_AES_128_KEY_LEN key) (padTo ATAP_GCM_IV_LEN iv)
        (ciphertext.take len ++ padTo ATAP_GCM_TAG_LEN tag) = Except.error f₂) :
    aes_gcm_128_decrypt g₁ true ciphertext len iv key tag
      = (ATAP_RESULT_ERROR_CRYPTO, none)
    ∧ aes_gcm_128_decrypt g₁ true ciphertext len iv key tag
      = aes_gcm_128_decrypt g₂ true ciphertext len iv key tag
    ∧ aes_gcm_128_decrypt g₁ false ciphertext len iv key tag
      = (ATAP_RESULT_ERROR_CRYPTO, none) := by
  unfold aes_gcm_128_decrypt
  simp [h₁, h₂]

/-- Evaluation of claim_C3_uniform_decrypt_error: a decrypt whose AEAD
open reports a tag mismatch and one whose open reports a different
internal error return the same ATAP_RESULT_ERROR_CRYPTO result. -/
theorem claim_C3_witness :
    aes_gcm_128_decrypt (fun _ _ _ => Except.error GcmFailure.tagMismatch) true
        [1, 2, 3] 3 [4] [5] [6]
      = (ATAP_RESULT_ERROR_CRYPTO, none)
    ∧ aes_gcm_128_decrypt (fun _ _ _ => Except.error GcmFailure.tagMismatch) true
        [1, 2, 3] 3 [4] [5] [6]
      = aes_gcm_128_decrypt (fun _ _ _ => Except.error GcmFailure.internalError) true
        [1, 2, 3] 3 [4] [5] [6]
    ∧ aes_gcm_128_decrypt (fun _ _ _ => Except.error GcmFailure.tagMismatch) false
        [1, 2, 3] 3 [4] [5] [6]
      = (ATAP_RESULT_ERROR_CRYPTO, none) :=
  claim_C3_uniform_decrypt_error
    (fun _ _ _ => Except.error GcmFailure.tagMismatch)
    (fun _ _ _ => Except.error GcmFailure.internalError)
    [1, 2, 3] 3 [4] [5] [6] GcmFailure.tagMismatch GcmFailure.internalError rfl rfl

/-! ## Claim C4 -/

/-- C4 as stated is false on the code: with the P-256 curve, a
successfully deserialized peer point and a successfully serialized own
public key, a failing shared-secret computation makes
ecdh_shared_secret_compute return ATAP_RESULT_ERROR_CRYPTO with the
public_key output buffer already overwritten (here: all-7 bytes where
the buffer held all-0 bytes on entry). -/
theorem claim_C4_counterexample :
    ecdh_shared_secret_compute ⟨[], 0⟩ xTrivial pComputeFail ATAP_CURVE_TYPE_P256
        (List.replicate 33 5) (List.replicate 33 0) (List.replicate 32 0)
      = some (ATAP_RESULT_ERROR_CRYPTO, List.replicate 33 7, List.replicate 32 0)
    ∧ List.replicate 33 7 ≠ List.replicate (33 : Nat) 0 := by
  constructor
  · decide
  · decide

/-- C4 amended: an UnsupportedOperation failure (unsupported curve) and
a CryptoError failure of the peer-public-key deserialization leave both
output buffers unchanged, but a CryptoError from the P-256
shared-secret computation occurs after the public-key buffer has been
overwritten with the serialized own public key (the shared-secret
buffer is still unchanged there). -/
theorem claim_C4_amended (st : OpensslOpsState) (x : X25519Prims) (p : P256Prims)
    (curve : Nat) (other pub ss : List Nat)
    (hc1 : curve ≠ ATAP_CURVE_TYPE_X25519) (hc2 : curve ≠ ATAP_CURVE_TYPE_P256) :
    ecdh_shared_secret_compute st x p curve other pub ss
      = some (ATAP_RESULT_ERROR_UNSUPPORTED_OPERATION, pub, ss)
    ∧ (p.oct2point other = none →
        ecdh_shared_secret_compute st x p ATAP_CURVE_TYPE_P256 other pub ss
          = some (ATAP_RESULT_ERROR_CRYPTO, pub, ss))
    ∧ (∀ pt k pubOct, p.oct2point other = some pt →
        p256_private_key st p = some (Except.ok k) →
        p.point2oct k = some pubOct → p.computeKey k pt = none →
        ecdh_shared_secret_compute st x p ATAP_CURVE_TYPE_P256 other pub ss
          = some (ATAP_RESULT_ERROR_CRYPTO, padTo ATAP_ECDH_KEY_LEN pubOct, ss)) := by
  refine ⟨?_, ?_, ?_⟩
  · simp [ecdh_shared_secret_compute, hc1, hc2]
  · intro hbad
    simp [ecdh_shared_secret_compute, ATAP_CURVE_TYPE_P256, ATAP_CURVE_TYPE_X25519,
      ecdh_p256, hbad]
  · intro pt k pubOct hop hk hpo hck
    simp [ecdh_shared_secret_compute, ATAP_CURVE_TYPE_P256, ATAP_CURVE_TYPE_X25519,
      ecdh_p256, hop, hk, hpo, hck]

/-- Evaluation of claim_C4_amended at concrete inputs: the unsupported
curve value 0 leaves the buffers unchanged, and the compute-key failure
leaves the public-key buffer overwritten with the serialized key. -/
theorem claim_C4_amended_witness :
    ecdh_shared_secret_compute ⟨[], 0⟩ xTrivial pComputeFail 0
        (List.replicate 33 5) (List.replicate 33 0) (List.replicate 32 0)
      = some (ATAP_RESULT_ERROR_UNSUPPORTED_OPERATION, List.replicate 33 0,
          List.replicate 32 0)
    ∧ ecdh_shared_secret_compute ⟨[], 0⟩ xTrivial pComputeFail ATAP_CURVE_TYPE_P256
        (List.replicate 33 5) (List.replicate 33 0) (List.replicate 32 0)
      = some (ATAP_RESULT_ERROR_CRYPTO, padTo ATAP_ECDH_KEY_LEN (List.replicate 33 7),
          List.replicate 32 0) := by
  have h := claim_C4_amended ⟨[], 0⟩ xTrivial pComputeFail 0
    (List.replicate 33 5) (List.replicate 33 0) (List.replicate 32 0)
    (by decide) (by decide)
  exact ⟨h.1, h.2.2 [1] P256Key.generated (List.replicate 33 7) rfl rfl rfl rfl⟩

/-! ## Claim C5 -/

/-- C5: ecdh_shared_secret_compute fails with UnsupportedOperation for
every curve value other than X25519 and P256, and fails with
CryptoError when the curve is P256 and the peer public key does not
deserialize as a point of the curve. -/
theorem claim_C5_curve_and_peer_validation (st : OpensslOpsState)
    (x : X25519Prims) (p : P256Prims) (curve : Nat) (other pub ss : List Nat)
    (hc1 : curve ≠ ATAP_CURVE_TYPE_X25519) (hc2 : curve ≠ ATAP_CURVE_TYPE_P256)
    (hbad : p.oct2point other = none) :
    ecdh_shared_secret_compute st x p curve other pub ss
      = some (ATAP_RESULT_ERROR_UNSUPPORTED_OPERATION, pub, ss)
    ∧ ecdh_shared_secret_compute st x p ATAP_CURVE_TYPE_P256 other pub ss
      = some (ATAP_RESULT_ERROR_CRYPTO, pub, ss) := by
  constructor
  · simp [ecdh_shared_secret_compute, hc1, hc2]
  · simp [ecdh_shared_secret_compute, ATAP_CURVE_TYPE_P256, ATAP_CURVE_TYPE_X25519,
      ecdh_p256, hbad]

/-- Evaluation of claim_C5_curve_and_peer_validation: curve value 0 is
rejected as unsupported, and a peer key that does not decode makes the
P-256 path fail with the crypto error. -/
theorem claim_C5_witness :
    ecdh_shared_secret_compute ⟨[], 0⟩ xTrivial pTrivial 0 [1] [2] [3]
      = some (ATAP_RESULT_ERROR_UNSUPPORTED_OPERATION, [2], [3])
    ∧ ecdh_shared_secret_compute ⟨[], 0⟩ xTrivial pTrivial ATAP_CURVE_TYPE_P256 [1] [2] [3]
      = some (ATAP_RESULT_ERROR_CRYPTO, [2], [3]) :=
  claim_C5_curve_and_peer_validation ⟨[], 0⟩ xTrivial pTrivial 0 [1] [2] [3]
    (by decide) (by decide) rfl

/-! ## Claim C6 -/

/-- C6: with a configured test key of exactly 32 bytes, the X25519 path
derives the emitted public key from that key (zero-padded from 32 to
the 33-byte field) instead of generating a fresh pair, so two calls
with the same configured key — under any two entropy outcomes, as long
as the deterministic public-key derivation function is the same — emit
byte-identical public keys; with no 32-byte key configured, the emitted
public key comes from the freshly generated pair. -/
theorem claim_C6_x25519_test_key_determinism (st : OpensslOpsState)
    (x₁ x₂ : X25519Prims) (p : P256Prims) (other pub ss : List Nat)
    (hpfp : x₁.publicFromPrivate = x₂.publicFromPrivate)
    (htest : st.test_key_size_ = 32) :
    ecdh_shared_secret_compute st x₁ p ATAP_CURVE_TYPE_X25519 other pub ss
      = some (ATAP_RESULT_OK,
          padTo 32 (x₁.publicFromPrivate (padTo 32 st.test_key_)) ++ List.replicate 1 0,
          padTo 32 (x₁.dh (padTo 32 st.test_key_) (other.take 32)))
    ∧ (∀ a₁ b₁ c₁ a₂ b₂ c₂,
        ecdh_shared_secret_compute st x₁ p ATAP_CURVE_TYPE_X25519 other pub ss
          = some (a₁, b₁, c₁) →
        ecdh_shared_secret_compute st x₂ p ATAP_CURVE_TYPE_X25519 other pub ss
          = some (a₂, b₂, c₂) →
        b₁ = b₂)
    ∧ (∀ st2 : OpensslOpsState, st2.test_key_size_ ≠ 32 →
        ecdh_shared_secret_compute st2 x₁ p ATAP_CURVE_TYPE_X25519 other pub ss
          = some (ATAP_RESULT_OK,
              padTo 32 x₁.keypairPub ++ List.replicate 1 0,
              padTo 32 (x₁.dh (padTo 32 x₁.keypairPriv) (other.take 32)))) := by
  refine ⟨?_, ?_, ?_⟩
  · simp [ecdh_shared_secret_compute, ecdh_x25519, ATAP_CURVE_TYPE_X25519, htest,
      ATAP_ECDH_KEY_LEN]
  · intro a₁ b₁ c₁ a₂ b₂ c₂ h₁ h₂
    simp [ecdh_shared_secret_compute, ecdh_x25519, ATAP_CURVE_TYPE_X25519, htest] at h₁ h₂
    rw [← h₁.2.1, ← h₂.2.1, hpfp]
  · intro st2 htest2
    simp [ecdh_shared_secret_compute, ecdh_x25519, ATAP_CURVE_TYPE_X25519, htest2,
      ATAP_ECDH_KEY_LEN]

/-- Evaluation of claim_C6_x25519_test_key_determinism: with a 32-byte
test key configured, two calls whose fresh-keypair entropy differs but
whose derivation function agrees emit the same public key. -/
theorem claim_C6_witness :
    ecdh_shared_secret_compute stConcrete xConcrete pTrivial ATAP_CURVE_TYPE_X25519
        caPubConcrete (List.replicate 33 0) (List.replicate 32 0)
      = some (ATAP_RESULT_OK,
          padTo 32 (xConcrete.publicFromPrivate (padTo 32 stConcrete.test_key_))
            ++ List.replicate 1 0,
          padTo 32 (xConcrete.dh (padTo 32 stConcrete.test_key_) (caPubConcrete.take 32))) :=
  (claim_C6_x25519_test_key_determinism stConcrete xConcrete
    ⟨fun _ => List.replicate 32 1, [9], [9], fun _ _ => List.replicate 32 2⟩ pTrivial
    caPubConcrete (List.replicate 33 0) (List.replicate 32 0) rfl rfl).1

/-! ## Claim C10 -/

/-- C10: SetEcdhKeyForTesting never rejects an input: it stores
min(requested, buffer) as the test-key size, and it is this stored size
that selects the test-key path later — the X25519 branch takes the
test key exactly when the stored size is 32, and the P-256 branch
parses the stored key exactly when the stored size is nonzero. -/
theorem claim_C10_test_key_truncation (st : OpensslOpsState)
    (key_data : List Nat) (n : Nat) (x : X25519Prims) (p : P256Prims)
    (other pub ss : List Nat) (st' : OpensslOpsState)
    (hst : st' = SetEcdhKeyForTesting st key_data n) :
    st'.test_key_size_ = min n sizeof_test_key
    ∧ (st'.test_key_size_ = 32 →
        ecdh_shared_secret_compute st' x p ATAP_CURVE_TYPE_X25519 other pub ss
          = some (ATAP_RESULT_OK,
              padTo 32 (x.publicFromPrivate (padTo 32 st'.test_key_)) ++ List.replicate 1 0,
              padTo 32 (x.dh (padTo 32 st'.test_key_) (other.take 32))))
    ∧ (st'.test_key_size_ ≠ 32 →
        ecdh_shared_secret_compute st' x p ATAP_CURVE_TYPE_X25519 other pub ss
          = some (ATAP_RESULT_OK,
              padTo 32 x.keypairPub ++ List.replicate 1 0,
              padTo 32 (x.dh (padTo 32 x.keypairPriv) (other.take 32))))
    ∧ (st'.test_key_size_ > 0 →
        p256_private_key st' p
          = (if p.d2iPrivateKey (st'.test_key_.take st'.test_key_size_) then
              some (Except.ok (P256Key.fromDer (st'.test_key_.take st'.test_key_size_)))
            else none))
    ∧ (st'.test_key_size_ = 0 → p.ecKeyNewOk = true → p.setGroupOk = true →
        p.generateOk = true →
        p256_private_key st' p = some (Except.ok P256Key.generated)) := by
  refine ⟨?_, ?_, ?_, ?_, ?_⟩
  · rw [hst]
    simp only [SetEcdhKeyForTesting]
    split <;> omega
  · intro htest
    simp [ecdh_shared_secret_compute, ecdh_x25519, ATAP_CURVE_TYPE_X25519, htest,
      ATAP_ECDH_KEY_LEN]
  · intro htest
    simp [ecdh_shared_secret_compute, ecdh_x25519, ATAP_CURVE_TYPE_X25519, htest,
      ATAP_ECDH_KEY_LEN]
  · intro htest
    simp [p256_private_key, htest]
  · intro htest h1 h2 h3
    simp [p256_private_key, htest, h1, h2, h3]

/-- Evaluation of claim_C10_test_key_truncation: a requested size of
300 exceeds the 256-byte buffer and is silently truncated to 256; the
stored size 256 is nonzero, so the P-256 path parses the stored key. -/
theorem claim_C10_witness :
    (SetEcdhKeyForTesting ⟨List.replicate 256 0, 0⟩ (List.replicate 300 1) 300).test_key_size_
      = min 300 sizeof_test_key :=
  (claim_C10_test_key_truncation ⟨List.replicate 256 0, 0⟩ (List.replicate 300 1) 300
    xTrivial pTrivial [] [] []
    (SetEcdhKeyForTesting ⟨List.replicate 256 0, 0⟩ (List.replicate 300 1) 300) rfl).1

end Atap

namespace Epid

/-- A predicate holding on both branches of an if holds on the if. -/
theorem ite_pred {α : Type} {c : Prop} [Decidable c] {x y : α} (P : α → Prop)
    (hx : P x) (hy : P y) : P (if c then x else y) := by
  split
  · exact hx
  · exact hy

/-- The EpidSign-invocation component of EpidApiSign is either absent
or exactly 360: the source passes the literal local `sig_len = 360` to
EpidSign on the only path that reaches it. -/
theorem epidApiSign_snd_shape (env : EpidMemberEnv) (s pb pv : Bool)
    (ps vs basenameLen : Nat) (hashAlg : Int) :
    (EpidApiSign env s pb pv ps vs basenameLen hashAlg).2 = none ∨
    (EpidApiSign env s pb pv ps vs basenameLen hashAlg).2 = some 360 := by
  unfold EpidApiSign
  refine ite_pred (fun z : EpidStatus × Option Nat => z.2 = none ∨ z.2 = some 360) (Or.inl rfl) ?_
  refine ite_pred (fun z : EpidStatus × Option Nat => z.2 = none ∨ z.2 = some 360) (Or.inl rfl) ?_
  refine ite_pred (fun z : EpidStatus × Option Nat => z.2 = none ∨ z.2 = some 360) (Or.inl rfl) ?_
  refine ite_pred (fun z : EpidStatus × Option Nat => z.2 = none ∨ z.2 = some 360) (Or.inl rfl) ?_
  refine ite_pred (fun z : EpidStatus × Option Nat => z.2 = none ∨ z.2 = some 360) (Or.inl rfl) ?_
  refine ite_pred (fun z : EpidStatus × Option Nat => z.2 = none ∨ z.2 = some 360) (Or.inl rfl) ?_
  refine ite_pred (fun z : EpidStatus × Option Nat => z.2 = none ∨ z.2 = some 360) (Or.inl rfl) ?_
  refine ite_pred (fun z : EpidStatus × Option Nat => z.2 = none ∨ z.2 = some 360) (Or.inl rfl) ?_
  refine ite_pred (fun z : EpidStatus × Option Nat => z.2 = none ∨ z.2 = some 360) (Or.inl rfl) ?_
  refine ite_pred (fun z : EpidStatus × Option Nat => z.2 = none ∨ z.2 = some 360) (Or.inl rfl) ?_
  refine ite_pred (fun z : EpidStatus × Option Nat => z.2 = none ∨ z.2 = some 360) (Or.inl rfl) ?_
  exact Or.inr rfl

/-- When the computed signature size is not 360, no path of
EpidApiSign reaches the EpidSign call. -/
theorem epidApiSign_no_invoke (env : EpidMemberEnv) (s pb pv : Bool)
    (ps vs basenameLen : Nat) (hashAlg : Int)
    (hgs : env.getSigSize ≠ 360) :
    (EpidApiSign env s pb pv ps vs basenameLen hashAlg).2 = none := by
  unfold EpidApiSign
  rw [if_pos (show (360 : Nat) ≠ env.getSigSize from fun hh => hgs hh.symm)]
  refine ite_pred (fun z : EpidStatus × Option Nat => z.2 = none) rfl ?_
  refine ite_pred (fun z : EpidStatus × Option Nat => z.2 = none) rfl ?_
  refine ite_pred (fun z : EpidStatus × Option Nat => z.2 = none) rfl ?_
  refine ite_pred (fun z : EpidStatus × Option Nat => z.2 = none) rfl ?_
  refine ite_pred (fun z : EpidStatus × Option Nat => z.2 = none) rfl ?_
  refine ite_pred (fun z : EpidStatus × Option Nat => z.2 = none) rfl ?_
  refine ite_pred (fun z : EpidStatus × Option Nat => z.2 = none) rfl ?_
  refine ite_pred (fun z : EpidStatus × Option Nat => z.2 = none) rfl ?_
  refine ite_pred (fun z : EpidStatus × Option Nat => z.2 = none) rfl ?_
  exact ite_pred (fun z : EpidStatus × Option Nat => z.2 = none) rfl rfl

/-! ## Claim C7 -/

/-- C7: for every hash-algorithm selector other than SHA-256, SHA-384,
SHA-512 and SHA-512/256, EpidApiSign, EpidApiSignAtap and EpidApiVerify
all fail with the bad-argument error, and the external
signature-production (EpidSign) and signature-check (EpidVerify) calls
are never reached — provided the preceding member/verifier setup steps
(which do not depend on the selector) succeed. -/
theorem claim_C7_hash_alg_rejected (env : EpidMemberEnv) (venv : EpidVerifierEnv)
    (basenameLen : Nat) (hashAlg : Int)
    (hbad : epidHashAlgSupported hashAlg = false)
    (h1 : env.memberGetSize = kEpidNoErr) (h2 : env.callocOk = true)
    (h3 : env.memberInit = kEpidNoErr)
    (h4 : venv.verifierCreate = kEpidNoErr) :
    EpidApiSign env false false false sizeof_GroupPubKey sizeof_PrivKey basenameLen hashAlg
      = (kEpidBadArgErr, none)
    ∧ EpidApiSignAtap env false false false sizeof_EpidKeyATAP basenameLen hashAlg
      = (kEpidBadArgErr, some 360, none)
    ∧ EpidApiVerify venv false sizeof_GroupPubKey hashAlg = (kEpidBadArgErr, false) := by
  have hsign : EpidApiSign env false false false sizeof_GroupPubKey sizeof_PrivKey
      basenameLen hashAlg = (kEpidBadArgErr, none) := by
    simp [EpidApiSign, epidSetHashAlg, hbad, h1, h2, h3]
  refine ⟨hsign, ?_, ?_⟩
  · simp [EpidApiSignAtap, hsign]
  · simp [EpidApiVerify, epidSetHashAlg, hbad, h4]

/-- Evaluation of claim_C7_hash_alg_rejected at the rejected selector
kSha3_512 with every external setup step succeeding. -/
theorem claim_C7_witness :
    EpidApiSign envAllOk false false false sizeof_GroupPubKey sizeof_PrivKey 0 kSha3_512
      = (kEpidBadArgErr, none)
    ∧ EpidApiSignAtap envAllOk false false false sizeof_EpidKeyATAP 0 kSha3_512
      = (kEpidBadArgErr, some 360, none)
    ∧ EpidApiVerify venvAllOk false sizeof_GroupPubKey kSha3_512
      = (kEpidBadArgErr, false) :=
  claim_C7_hash_alg_rejected envAllOk venvAllOk 0 kSha3_512 (by decide) rfl rfl rfl rfl

/-! ## Claim C8 -/

/-- C8: EpidApiSignAtap writes exactly 360 through its signature-length
output whenever both output pointers are non-null (regardless of the
key buffer); EpidApiSign refuses with kEpidMemAllocErr whenever the
computed signature size differs from 360, never reaching EpidSign; and
every EpidSign invocation either function makes passes exactly the
signature length 360. -/
theorem claim_C8_signature_length_360 (env : EpidMemberEnv)
    (sigNull pubNull privNull keyNull : Bool)
    (keySize pubSize privSize basenameLen : Nat) (hashAlg : Int) :
    (EpidApiSignAtap env false false keyNull keySize basenameLen hashAlg).2.1 = some 360
    ∧ (∀ n, (EpidApiSign env sigNull pubNull privNull pubSize privSize
          basenameLen hashAlg).2 = some n → n = 360)
    ∧ (∀ n, (EpidApiSignAtap env false false keyNull keySize basenameLen
          hashAlg).2.2 = some n → n = 360)
    ∧ (env.getSigSize ≠ 360 →
        (EpidApiSign env sigNull pubNull privNull pubSize privSize
          basenameLen hashAlg).2 = none)
    ∧ (env.getSigSize ≠ 360 → env.memberGetSize = kEpidNoErr → env.callocOk = true →
        env.memberInit = kEpidNoErr → epidHashAlgSupported hashAlg = true →
        env.provisionKey = kEpidNoErr → env.memberStartup = kEpidNoErr →
        basenameLen = 0 →
        EpidApiSign env false false false sizeof_GroupPubKey sizeof_PrivKey
          basenameLen hashAlg = (kEpidMemAllocErr, none)) := by
  have key : ∀ (s pb pv : Bool) (ps vs : Nat) (n : Nat),
      (EpidApiSign env s pb pv ps vs basenameLen hashAlg).2 = some n → n = 360 := by
    intro s pb pv ps vs n hn
    rcases epidApiSign_snd_shape env s pb pv ps vs basenameLen hashAlg with h | h
    · rw [hn] at h
      exact absurd h (by simp)
    · rw [hn] at h
      exact (Option.some.inj h)
  refine ⟨?_, key _ _ _ _ _, ?_, ?_, ?_⟩
  · unfold EpidApiSignAtap
    split
    · simp_all
    · split <;> rfl
  · intro n hn
    unfold EpidApiSignAtap at hn
    split at hn
    · simp_all
    · split at hn
      · simp at hn
      · exact key false false false sizeof_GroupPubKey sizeof_PrivKey n hn
  · intro hgs
    exact epidApiSign_no_invoke env sigNull pubNull privNull pubSize privSize
      basenameLen hashAlg hgs
  · intro hgs h1 h2 h3 h4 h5 h6 h7
    have hgs2 : (360 : Nat) ≠ env.getSigSize := fun hh => hgs hh.symm
    simp [EpidApiSign, epidSetHashAlg, h1, h2, h3, h4, h5, h6, h7, hgs2]

/-- Evaluation of claim_C8_signature_length_360: with a computed
signature size of 361 the sign refuses with kEpidMemAllocErr, and the
length written by EpidApiSignAtap is 360 even then. -/
theorem claim_C8_witness :
    (EpidApiSignAtap envSig361 false false false sizeof_EpidKeyATAP 0 kSha256).2.1
      = some 360
    ∧ EpidApiSign envSig361 false false false sizeof_GroupPubKey sizeof_PrivKey 0 kSha256
      = (kEpidMemAllocErr, none) :=
  ⟨(claim_C8_signature_length_360 envSig361 false false false false sizeof_EpidKeyATAP
      sizeof_GroupPubKey sizeof_PrivKey 0 kSha256).1,
   (claim_C8_signature_length_360 envSig361 false false false false sizeof_EpidKeyATAP
      sizeof_GroupPubKey sizeof_PrivKey 0 kSha256).2.2.2.2 (by decide) rfl rfl rfl
      (by decide) rfl rfl rfl⟩

/-! ## Claim C9 -/

/-- C9: whenever EpidApiSignPrecomp is called with a key buffer of
exactly sizeof(EpidKeyATAP) bytes and a precomp buffer of exactly
sizeof(MemberPrecomp) bytes, it returns kEpidNoErr even when the
internal member chain (size query, allocation, init, provisioning,
startup, precomp write) produced an error status: that status is
discarded by the final return. -/
theorem claim_C9_precomp_discards_errors (env : EpidMemberEnv)
    (keySize precompSize : Nat)
    (hk : keySize = sizeof_EpidKeyATAP) (hp : precompSize = sizeof_MemberPrecomp)
    (hfail : epidSignPrecompChainStatus env ≠ kEpidNoErr) :
    EpidApiSignPrecomp env false false keySize precompSize = kEpidNoErr := by
  subst hk
  subst hp
  simp [EpidApiSignPrecomp]

/-- Evaluation of claim_C9_precomp_discards_errors: with every internal
step failing, the chain status is an error yet the function returns
kEpidNoErr. -/
theorem claim_C9_witness :
    EpidApiSignPrecomp envAllFail false false sizeof_EpidKeyATAP sizeof_MemberPrecomp
      = kEpidNoErr :=
  claim_C9_precomp_discards_errors envAllFail sizeof_EpidKeyATAP sizeof_MemberPrecomp
    rfl rfl (by decide)

end Epid
